import Mathlib

/- Verification development for the EIP-7702 wallet upgrade/recovery demo.

   The repository's hash builder, state inspector, recovery orchestrator and
   relay endpoint are embedded shallowly below.  Bytes are natural numbers
   below 256; byte strings are lists of such numbers; JavaScript/viem hex
   strings are Lean `String`s of the form `0x…`.  The keccak256 primitive and
   the secp256k1 signing primitive are external library collaborators, so the
   definitions are parametric in them (`keccak : List Nat → List Nat`,
   `sign : List Nat → EcdsaSig`). -/

/- Big-endian byte rendering of a natural number into a fixed number of
   bytes (the low `k` bytes of `n`), as used for 32-byte ABI words. -/
def natToBEBytes : Nat → Nat → List Nat
  | _, 0 => []
  | n, k + 1 => natToBEBytes (n / 256) k ++ [n % 256]

/- Left-pad a byte string with zero bytes into a 32-byte ABI word. -/
def leftPad32 (bs : List Nat) : List Nat :=
  List.replicate (32 - bs.length) 0 ++ bs

/- Right-pad a byte string with zero bytes to a multiple of 32 bytes. -/
def padRight32 (bs : List Nat) : List Nat :=
  bs ++ List.replicate ((32 - bs.length % 32) % 32) 0

/- Lower-case hexadecimal digit for a value below 16. -/
def hexDigitChar (n : Nat) : Char :=
  if n < 10 then Char.ofNat (48 + n) else Char.ofNat (87 + n)

def byteToHexChars (b : Nat) : List Char :=
  [hexDigitChar (b / 16), hexDigitChar (b % 16)]

def bytesToHexChars (bs : List Nat) : List Char :=
  (bs.map byteToHexChars).flatten

/- Numeric value of a hexadecimal digit character (either case). -/
def hexDigitVal (c : Char) : Nat :=
  if 97 ≤ c.toNat then c.toNat - 87
  else if 65 ≤ c.toNat then c.toNat - 55
  else c.toNat - 48

def isHexDigitChar (c : Char) : Bool :=
  (48 ≤ c.toNat && c.toNat ≤ 57) ||
  (97 ≤ c.toNat && c.toNat ≤ 102) ||
  (65 ≤ c.toNat && c.toNat ≤ 70)

/- Decode a sequence of hexadecimal digit characters into bytes, two digits
   per byte; a trailing odd digit is an error case in the JS libraries and is
   rendered here as producing nothing. -/
def hexCharsToBytes : List Char → List Nat
  | [] => []
  | [_] => []
  | c1 :: c2 :: rest => (hexDigitVal c1 * 16 + hexDigitVal c2) :: hexCharsToBytes rest

/- Render a byte string as a `0x…` hex string, as viem does. -/
def hexOfBytes (bs : List Nat) : String :=
  String.mk ('0' :: 'x' :: bytesToHexChars bs)

/- Decode a `0x…` hex string (the JS `hexToBytes(s.slice(2))` pattern). -/
def bytesOfHex (s : String) : List Nat :=
  hexCharsToBytes (s.data.drop 2)

/- UTF-8 bytes of an ASCII string. -/
def asciiBytes (s : String) : List Nat :=
  s.data.map Char.toNat

/- JavaScript `toLowerCase` restricted to ASCII, which is all the sources use
   it on (hex strings and addresses). -/
def lcChar (c : Char) : Char :=
  if 65 ≤ c.toNat ∧ c.toNat ≤ 90 then Char.ofNat (c.toNat + 32) else c

def lowerStr (s : String) : String :=
  String.mk (s.data.map lcChar)

/- A well-formed `0x…` hex input: every character after the `0x` tag is a
   hexadecimal digit. -/
def HexData (s : String) : Prop :=
  ∀ c ∈ s.data.drop 2, isHexDigitChar c = true

instance (s : String) : Decidable (HexData s) := by
  unfold HexData; exact List.decidableBAll _ _

/- Solidity ABI values occurring in this repository: addresses (20 raw
   bytes), dynamic `bytes`, and `bytes[]`. -/
inductive AbiValue where
  | addr (bs : List Nat)
  | bytes (bs : List Nat)
  | bytesArr (elems : List (List Nat))
deriving DecidableEq

/- Tail encoding of one dynamic `bytes` value: length word, padded data. -/
def bytesTail (bs : List Nat) : List Nat :=
  natToBEBytes bs.length 32 ++ padRight32 bs

/- Head words (offsets) for the elements of a `bytes[]` value. -/
def encodeBytesHeads : List (List Nat) → Nat → List Nat
  | [], _ => []
  | bs :: rest, off => natToBEBytes off 32 ++ encodeBytesHeads rest (off + (bytesTail bs).length)

def encodeBytesList (elems : List (List Nat)) : List Nat :=
  encodeBytesHeads elems (32 * elems.length) ++ (elems.map bytesTail).flatten

def AbiValue.tailEnc : AbiValue → List Nat
  | .addr _ => []
  | .bytes bs => bytesTail bs
  | .bytesArr es => natToBEBytes es.length 32 ++ encodeBytesList es

def AbiValue.headEnc : AbiValue → Nat → List Nat
  | .addr bs, _ => leftPad32 bs
  | .bytes _, off => natToBEBytes off 32
  | .bytesArr _, off => natToBEBytes off 32

def encodeHeads : List AbiValue → Nat → List Nat
  | [], _ => []
  | v :: rest, off => v.headEnc off ++ encodeHeads rest (off + v.tailEnc.length)

/- Standard ABI head/tail encoding of a tuple of values, the semantics of
   viem's `encodeAbiParameters`. -/
def encodeTuple (vs : List AbiValue) : List Nat :=
  encodeHeads vs (32 * vs.length) ++ (vs.map AbiValue.tailEnc).flatten

namespace WalletUtils

/- Constants from `src/unnamed/part_001` (the contracts module). -/
def EIP7702PROXY_TEMPLATE_ADDRESS : String := "0xcA271A94dd66982180960B579de6B3213084D67A"

def NONCE_TRACKER_ADDRESS : String := "0x1e3C75E11F8c31ffe8BA28A648B1D58566df6d72"

def VALIDATOR_ADDRESS : String := "0xA96fc9fA032e5f58E225D979f985D51BCb671eF8"

def CBSW_IMPLEMENTATION_ADDRESS : String := "0x3e0BecB45eBf7Bd1e3943b9521264Bc5B0bd8Ca9"

def IMPLEMENTATION_SET_TYPEHASH : String :=
  "EIP7702ProxyImplementationSet(uint256 chainId,address proxy,uint256 nonce,address currentImplementation,address newImplementation,bytes callData,address validator)"

def ERC1967_IMPLEMENTATION_SLOT : String :=
  "0x360894a13ba1a3210667c828492db98dca3e2076cc3735a920a3ca505d382bbc"

/- The EIP-7702 delegation magic (`MAGIC_PREFIX` in the source). -/
def MAGIC_PREFIX_STR : String := "0xef0100"

/- viem's `keccak256` on a hex string: decode, hash, re-encode. -/
def viemKeccak256 (keccak : List Nat → List Nat) (s : String) : String :=
  hexOfBytes (keccak (bytesOfHex s))

/- `encodeInitializeArgs` from the wallet-utils module in
   `src/unnamed/part_001`: encode each owner address, then encode the array
   of encoded owners as `bytes[]`. -/
def encodeInitializeArgs (ownerAddress : String) : String :=
  let owners := [ownerAddress]
  let encodedOwners := owners.map (fun owner => hexOfBytes (encodeTuple [.addr (bytesOfHex owner)]))
  hexOfBytes (encodeTuple [.bytesArr (encodedOwners.map bytesOfHex)])

/- `createInitializeHash` from the wallet-utils module in
   `src/unnamed/part_001`: keccak256 of the ABI encoding of
   `(address proxyAddress, bytes initArgs)`. -/
def createInitializeHash (keccak : List Nat → List Nat) (proxyAddress initArgs : String) : String :=
  viemKeccak256 keccak
    (hexOfBytes (encodeTuple [.addr (bytesOfHex proxyAddress), .bytes (bytesOfHex initArgs)]))

/- viem's `signMessage` with a plain string argument signs the EIP-191
   prefixed message: the byte string below is what gets keccak-hashed and
   then ECDSA-signed.  `src/unnamed/part_001`'s `signInitialization` passes
   the digest hex string as a plain string message. -/
def signMessagePayload (message : String) : List Nat :=
  asciiBytes ("\x19Ethereum Signed Message:\n" ++ toString message.length ++ message)

/- The byte string that `signInitialization` in `src/unnamed/part_001`
   actually feeds into the EIP-191 signing pipeline for a digest `message`. -/
def signInitializationSignedBytes (message : String) : List Nat :=
  signMessagePayload message

/-- Modelled from the spec: `createSetImplementationHash` is imported by
`PasskeyVerification.tsx` from the wallet-utils module but its definition is
not among the source files (only its call site and the
`IMPLEMENTATION_SET_TYPEHASH` constant are).  Per the spec it encodes, under
the fixed type-descriptor string, the fields
`{chainId, proxy, nonce, currentImplementation, newImplementation, callData,
validator}` in that order and reduces via keccak256; dynamic members (the
type string and the call data) enter through their keccak digests,
`allowCrossChainReplay` replaces the chain id by zero, and the validator is
the `VALIDATOR_ADDRESS` constant. -/
def createSetImplementationHash (keccak : List Nat → List Nat)
    (proxyAddr newImpl callData : String) (nonce : Nat) (currentImpl : String)
    (allowCrossChainReplay : Bool) (chainId : Nat) : String :=
  hexOfBytes (keccak (
    keccak (asciiBytes IMPLEMENTATION_SET_TYPEHASH) ++
    natToBEBytes (if allowCrossChainReplay then 0 else chainId) 32 ++
    leftPad32 (bytesOfHex proxyAddr) ++
    natToBEBytes nonce 32 ++
    leftPad32 (bytesOfHex currentImpl) ++
    leftPad32 (bytesOfHex newImpl) ++
    keccak (bytesOfHex callData) ++
    leftPad32 (bytesOfHex VALIDATOR_ADDRESS)))

end WalletUtils

namespace UpgradeWallet

/- A recoverable secp256k1 signature as produced by
   `@noble/curves`' `secp256k1.sign`. -/
structure EcdsaSig where
  r : Nat
  s : Nat
  recovery : Nat

/- JavaScript `Number.prototype.toString(16)`: minimal lower-case hex
   rendering of a natural number, accumulating digits lowest first; the
   fuel argument only bounds the recursion and never runs out because a
   number below `16 ^ fuel` has at most `fuel` hex digits. -/
def natToHexCharsGo : Nat → Nat → List Char → List Char
  | 0, _, acc => acc
  | fuel + 1, n, acc =>
    if n = 0 then acc else natToHexCharsGo fuel (n / 16) (hexDigitChar (n % 16) :: acc)

def natToHexChars (n : Nat) : List Char :=
  if n = 0 then ['0'] else natToHexCharsGo n n []

/- JavaScript `padStart(len, c)`. -/
def padStartChars (len : Nat) (c : Char) (l : List Char) : List Char :=
  List.replicate (len - l.length) c ++ l

/- `encodeInitializeArgs` from `src/scripts/upgrade-wallet.ts`. -/
def encodeInitializeArgs (ownerAddress : String) : String :=
  let encodedOwner := hexOfBytes (encodeTuple [.addr (bytesOfHex ownerAddress)])
  let owners := [encodedOwner]
  hexOfBytes (encodeTuple [.bytesArr (owners.map bytesOfHex)])

/- `createInitializeHash` from `src/scripts/upgrade-wallet.ts`: ABI-encode
   the pair, convert the hex to bytes, keccak, and re-encode as hex. -/
def createInitializeHash (keccak : List Nat → List Nat) (proxyAddr initArgs : String) : String :=
  let abiEncoded := hexOfBytes (encodeTuple [.addr (bytesOfHex proxyAddr), .bytes (bytesOfHex initArgs)])
  let abiEncodedBytes := hexCharsToBytes (abiEncoded.data.drop 2)
  let hashBytes := keccak abiEncodedBytes
  String.mk ('0' :: 'x' :: bytesToHexChars hashBytes)

/- The byte string `signInitialization` in `src/scripts/upgrade-wallet.ts`
   hands to `secp256k1.sign`: the raw digest bytes, with no prefix. -/
def signInitializationSignedBytes (hash : String) : List Nat :=
  hexCharsToBytes (hash.data.drop 2)

/- `signInitialization` from `src/scripts/upgrade-wallet.ts`: sign the raw
   digest, pack `r ‖ s ‖ v` with `v = recovery + 27`. -/
def signInitialization (sign : List Nat → EcdsaSig) (hash : String) : String :=
  let hashBytes := hexCharsToBytes (hash.data.drop 2)
  let sg := sign hashBytes
  let r := padStartChars 64 '0' (natToHexChars sg.r)
  let s := padStartChars 64 '0' (natToHexChars sg.s)
  let v := sg.recovery + 27
  String.mk ('0' :: 'x' :: (r ++ s ++ natToHexChars v))

end UpgradeWallet

namespace RecoveryModal

/- `isUnrecoverable` from `src/unnamed/part_002`: both the delegate and the
   ownership are disrupted while the implementation is still correct. -/
def isUnrecoverable (delegateIssue implementationIssue ownershipDisrupted : Bool) : Bool :=
  delegateIssue && ownershipDisrupted && !implementationIssue

/- What the recovery modal renders: whether it is visible, whether the
   distinct unrecoverable notice is shown, and whether the restore-account
   button (the only way to reach `onRecover`) is rendered. -/
structure Render where
  visible : Bool
  unrecoverableNotice : Bool
  recoverButtonShown : Bool
deriving DecidableEq

/- The render function of the `RecoveryModal` component in
   `src/unnamed/part_002`: closed when not open; when open it shows the
   unrecoverable notice exactly in the unrecoverable state, and the restore
   button exactly otherwise. -/
def render (isOpen delegateIssue implementationIssue ownershipDisrupted : Bool) : Render :=
  if isOpen then
    ⟨true, isUnrecoverable delegateIssue implementationIssue ownershipDisrupted,
     !(isUnrecoverable delegateIssue implementationIssue ownershipDisrupted)⟩
  else ⟨false, false, false⟩

end RecoveryModal

namespace AccountState

/-- Modelled from the spec: `getExpectedBytecode` lives in
`app/lib/contract-utils`, which is not among the source files; per the spec
the expected delegated bytecode is the 3-byte delegation magic followed by
the 20-byte expected delegate address. -/
def getExpectedBytecode (expectedDelegate : String) : String :=
  String.mk (WalletUtils.MAGIC_PREFIX_STR.data ++ expectedDelegate.data.drop 2)

/- `isCorrectBytecode` from `src/unnamed/part_005`: case-insensitive
   comparison against the expected delegated bytecode. -/
def isCorrectBytecode (expectedDelegate bytecode : String) : Bool :=
  lowerStr bytecode == lowerStr (getExpectedBytecode expectedDelegate)

/- The bytecode issue classification of the `AccountState` component in
   `src/unnamed/part_005`: empty bytecode (`0x`) or any mismatch is an
   issue. -/
def bytecodeIssue (expectedDelegate bytecode : String) : Bool :=
  bytecode == "0x" || !(isCorrectBytecode expectedDelegate bytecode)

/- The implementation issue classification of the `AccountState` component:
   the displayed slot value must equal the expected implementation address,
   case-insensitively. -/
def implementationIssue (expectedImplementation slotShown : String) : Bool :=
  lowerStr slotShown != lowerStr expectedImplementation

end AccountState

namespace RelayRoute

/- Transaction hashes the relayer wallet would return for each operation. -/
structure RelayEnv where
  fundHash : String
  upgradeHash : String
  executeHash : String

/- The ledger submissions the `POST` handler in `src/unnamed/part_000` can
   make: `sendTransaction` for `fund`, `sendTransaction` with an
   authorization list for `upgradeEOA`, and `writeContract` for `execute`. -/
inductive Submission where
  | sendTransaction
  | sendTransactionWithAuthorization
  | writeContract
deriving DecidableEq

structure RouteResponse where
  status : Nat
  error : Option String
  hash : Option String
deriving DecidableEq

/- The operation dispatch of the `POST` handler in `src/unnamed/part_000`:
   the result is the HTTP response plus the list of ledger submissions
   performed while handling the request. -/
def POST (operation : String) (env : RelayEnv) : RouteResponse × List Submission :=
  if operation = "fund" then (⟨200, none, some env.fundHash⟩, [.sendTransaction])
  else if operation = "upgradeEOA" then
    (⟨200, none, some env.upgradeHash⟩, [.sendTransactionWithAuthorization])
  else if operation = "execute" then (⟨200, none, some env.executeHash⟩, [.writeContract])
  else (⟨400, some ("Unknown operation: " ++ operation), none⟩, [])

end RelayRoute

namespace PasskeyVerification

def MIN_DEPOSIT : Nat := 100000000000000000

/- The `VerificationStep` record of `PasskeyVerification.tsx`. -/
structure VStep where
  status : String
  isComplete : Bool
  txHash : Option String
  userOpHash : Option String
  error : Option String
deriving DecidableEq

/- Observable events of the `PasskeyVerification` component's handlers, in
   program order: step-log operations, relay/API fetches, receipt waits,
   state re-inspection, on-chain reads (with the value the environment
   returned), commitment building and signing. -/
inductive Ev where
  | clearSteps
  | addStep (status : String) (isComplete : Bool) (error : Option String)
  | updateStep (idx : Nat) (status : Option String) (isComplete : Option Bool)
      (txHash : Option String) (userOpHash : Option String) (error : Option String)
  | openRecoveryModal
  | fetchRelay (operation : String)
  | fetchApi (path : String)
  | waitTx (txHash : String)
  | checkState
  | readImplSlot (value : String)
  | readNonce (value : Nat)
  | readNextOwnerIndex (value : Nat)
  | readDeposit (value : Nat)
  | readBalance (value : Nat)
  | readSmartNonce (value : Nat)
  | signUserOp
  | buildSetImplHash (proxy newImpl callData : String) (nonce : Nat)
      (currentImpl : String) (allowCrossChainReplay : Bool) (chainId : Nat)
  | signRawHash
  | recoveryComplete
  | setVerified
deriving DecidableEq

/- The shape of an event, forgetting environment-supplied payloads. -/
inductive EvKind where
  | clear
  | add (status : String)
  | upd (idx : Nat)
  | modal
  | fetchRelay (operation : String)
  | fetchApi (path : String)
  | wait
  | check
  | readSlot
  | readNonce
  | readNOI
  | readDeposit
  | readBalance
  | readSmartNonce
  | signUserOp
  | build
  | signRaw
  | complete
  | verified
deriving DecidableEq

def Ev.kind : Ev → EvKind
  | .clearSteps => .clear
  | .addStep s _ _ => .add s
  | .updateStep i _ _ _ _ _ => .upd i
  | .openRecoveryModal => .modal
  | .fetchRelay op => .fetchRelay op
  | .fetchApi p => .fetchApi p
  | .waitTx _ => .wait
  | .checkState => .check
  | .readImplSlot _ => .readSlot
  | .readNonce _ => .readNonce
  | .readNextOwnerIndex _ => .readNOI
  | .readDeposit _ => .readDeposit
  | .readBalance _ => .readBalance
  | .readSmartNonce _ => .readSmartNonce
  | .signUserOp => .signUserOp
  | .buildSetImplHash _ _ _ _ _ _ _ => .build
  | .signRawHash => .signRaw
  | .recoveryComplete => .complete
  | .setVerified => .verified

/- The address the component derives from an implementation-slot read:
   `0x` followed by the last 40 hex characters (`slice(-40)`). -/
def currentImplFromSlot (slotValue : String) : String :=
  String.mk ('0' :: 'x' :: slotValue.data.drop (slotValue.data.length - 40))

/- The environment a recovery attempt runs against: whether the two relay
   fetches succeed, the transaction hashes they return, and the values
   on-chain reads return. -/
structure RecoverEnv where
  delegateOk : Bool
  delegateHash : String
  slotValue : String
  nonce : Nat
  nextOwnerIndex : Nat
  implOk : Bool
  implHash : String

/- Events of the final success block of `handleRecover`. -/
def recoverSuccessTail : List Ev :=
  [.recoveryComplete, .addStep "✓ Account recovered successfully" true none]

/- Events of the implementation-repair branch of `handleRecover`
   (`isImplementationDisrupted` true): read the slot, read the nonce from
   the NonceTracker, read the owner index, build the set-implementation
   commitment from the freshly read values, sign it raw, submit via the
   relay, then wait, re-inspect and mark the step complete. -/
def implBranchTrace (wallet newImpl : String) (chainId : Nat) (d : Bool) (env : RecoverEnv) : List Ev :=
  [.addStep "Resetting implementation to correct version..." false none,
   .readImplSlot env.slotValue,
   .readNonce env.nonce,
   .readNextOwnerIndex env.nextOwnerIndex,
   .buildSetImplHash wallet newImpl "0x" env.nonce (currentImplFromSlot env.slotValue) false chainId,
   .signRawHash,
   .fetchRelay "resetImplementation"] ++
  (if env.implOk then
    [.updateStep (if d then 2 else 1) (some "Waiting for implementation reset transaction...")
        (some false) (some env.implHash) none none,
     .waitTx env.implHash,
     .checkState,
     .updateStep (if d then 2 else 1) (some "Successfully reset implementation")
        (some true) (some env.implHash) none none] ++ recoverSuccessTail
   else [.addStep "Recovery failed" true (some "Failed to reset implementation")])

/- The event trace of `handleRecover` in `PasskeyVerification.tsx`, given
   the disruption flags the component was mounted with and the environment.
   A failed relay fetch throws, and the catch block appends a fresh
   "Recovery failed" step carrying the error. -/
def handleRecoverTrace (wallet newImpl : String) (chainId : Nat) (d i : Bool) (env : RecoverEnv) : List Ev :=
  [.clearSteps, .addStep "Starting account recovery..." false none] ++
  (if d then
    [.addStep "Resetting delegate to relayer..." false none,
     .fetchRelay "resetDelegate"] ++
    (if env.delegateOk then
      [.updateStep 1 (some "Waiting for delegate reset transaction...") (some false)
          (some env.delegateHash) none none,
       .waitTx env.delegateHash,
       .checkState,
       .updateStep 1 (some "Successfully reset delegate") (some true)
          (some env.delegateHash) none none] ++
      (if i then implBranchTrace wallet newImpl chainId d env else recoverSuccessTail)
     else [.addStep "Recovery failed" true (some "Failed to reset delegate")])
   else
    (if i then implBranchTrace wallet newImpl chainId d env else recoverSuccessTail))

/- The environment a verification attempt runs against. -/
structure VerifyEnv where
  currentDeposit : Nat
  accountBalance : Nat
  fundOk : Bool
  fundHash : String
  depositOk : Bool
  depositErr : String
  depositTxHash : String
  newDeposit : Nat
  submitOk : Bool
  submitErr : String
  submitTxHash : String
  userOpHash : String
  retrieveOk : Bool
  retrieveErr : String
  retrieveTxHash : Option String
  nextOwnerIndex : Nat
  smartNonce : Nat

/- Events of steps 3-5 of `handleVerify` (create/sign the userOp, submit
   it, retrieve the unused deposit).  Note the hard-coded step indices from
   the source. -/
def verifyTail3 (env : VerifyEnv) : List Ev :=
  [.addStep "Creating and signing userOp to transfer 1 wei to relayer..." false none,
   .readNextOwnerIndex env.nextOwnerIndex,
   .readSmartNonce env.smartNonce,
   .signUserOp,
   .updateStep 2 (some "UserOperation created and signed") (some true) none none none,
   .addStep "Submitting userOperation..." false none,
   .fetchApi "/api/verify-passkey/submit"] ++
  (if env.submitOk then
    [.updateStep 3 (some "Waiting for userOperation transaction...") (some false)
        (some env.submitTxHash) (some env.userOpHash) none,
     .waitTx env.submitTxHash,
     .updateStep 3 (some "UserOperation submitted successfully") (some true)
        (some env.submitTxHash) (some env.userOpHash) none,
     .addStep "Retrieving unused deposit..." false none,
     .fetchApi "/api/verify-passkey/retrieve"] ++
    (if env.retrieveOk then
      (match env.retrieveTxHash with
       | some h =>
         [.updateStep 4 (some "Waiting for withdrawal transaction...") (some false)
             (some h) none none,
          .waitTx h,
          .updateStep 4 (some "Successfully retrieved unused deposit") (some true)
             (some h) none none,
          .setVerified]
       | none =>
         [.updateStep 4 (some "No unused deposit to retrieve") (some true) none none none,
          .setVerified])
     else [.updateStep 4 none (some true) none none (some env.retrieveErr)])
   else [.updateStep 3 none (some true) none none (some env.submitErr)])

/- Events of step 2 of `handleVerify` (pre-fund the EntryPoint deposit when
   it is below the minimum). -/
def verifyTail2 (env : VerifyEnv) : List Ev :=
  if env.currentDeposit < MIN_DEPOSIT then
    [.addStep "Pre-funding smart account gas in EntryPoint..." false none,
     .fetchApi "/api/verify-passkey/deposit"] ++
    (if env.depositOk then
      [.updateStep 1 (some "Waiting for EntryPoint pre-funding transaction...") (some false)
          (some env.depositTxHash) none none,
       .waitTx env.depositTxHash,
       .readDeposit env.newDeposit,
       .updateStep 1 (some "EntryPoint pre-funding complete") (some true)
          (some env.depositTxHash) none none] ++ verifyTail3 env
     else [.updateStep 1 none (some true) none none (some env.depositErr)])
  else verifyTail3 env

/- Events after the optional funding of step 1 of `handleVerify`. -/
def afterFund (env : VerifyEnv) : List Ev :=
  [.updateStep 0 (some "Smart account balance verified") (some true) none none none] ++
  verifyTail2 env

/- The event trace of `handleVerify` in `PasskeyVerification.tsx`: when the
   account is disrupted it only opens the recovery modal; otherwise it
   clears the step log and runs the five verification steps, with a thrown
   failure landing in the catch block which appends a fresh
   "Verification failed" step. -/
def handleVerifyTrace (d i : Bool) (env : VerifyEnv) : List Ev :=
  if d || i then [.openRecoveryModal]
  else
    [.clearSteps,
     .readDeposit env.currentDeposit,
     .addStep "Checking smart account balance..." false none,
     .readBalance env.accountBalance] ++
    (if env.accountBalance = 0 then
      [.updateStep 0 (some "Funding smart account with 1 wei...") (some false) none none none,
       .fetchRelay "fund"] ++
      (if env.fundOk then .waitTx env.fundHash :: afterFund env
       else [.addStep "Verification failed" true (some "Failed to fund smart account")])
     else afterFund env)

/- `updateStep`'s list update: replace the entry at the given index, leave
   every other entry alone. -/
def updateAt (idx : Nat) (f : VStep → VStep) : List VStep → List VStep
  | [] => []
  | st :: rest => if idx = 0 then f st :: rest else st :: updateAt (idx - 1) f rest

/- Merging a partial update into a step, the `{ ...step, ...updates }`
   spread of the source. -/
def mergeStep (st : VStep) (status : Option String) (isComplete : Option Bool)
    (txHash : Option String) (userOpHash : Option String) (error : Option String) : VStep :=
  ⟨status.getD st.status,
   isComplete.getD st.isComplete,
   (match txHash with | some h => some h | none => st.txHash),
   (match userOpHash with | some h => some h | none => st.userOpHash),
   (match error with | some e => some e | none => st.error)⟩

def applyEv (log : List VStep) : Ev → List VStep
  | .clearSteps => []
  | .addStep s c e => log ++ [⟨s, c, none, none, e⟩]
  | .updateStep i s c t u e => updateAt i (fun st => mergeStep st s c t u e) log
  | _ => log

/- The `steps` state after a handler's events have been applied. -/
def stepLog (evs : List Ev) : List VStep :=
  evs.foldl applyEv []

/- Kind-level view of a recovery trace. -/
def recoverKinds (wallet newImpl : String) (chainId : Nat) (d i : Bool) (env : RecoverEnv) : List EvKind :=
  (handleRecoverTrace wallet newImpl chainId d i env).map Ev.kind

end PasskeyVerification

/- Some occurrence of `a` strictly precedes the first occurrence of `b`. -/
def occursBefore {α : Type} [BEq α] (a b : α) (l : List α) : Bool :=
  (l.takeWhile (fun x => x != b)).contains a

/- The slice of `l` from the first occurrence of `a` (inclusive) up to the
   first later occurrence of `b` (exclusive). -/
def segmentBetween {α : Type} [BEq α] (a b : α) (l : List α) : List α :=
  (l.dropWhile (fun x => x != a)).takeWhile (fun x => x != b)

/- Every occurrence of `a` is immediately followed by an element satisfying
   `p`. -/
def alwaysNext {α : Type} [BEq α] (a : α) (p : α → Bool) : List α → Bool
  | [] => true
  | [x] => !(x == a)
  | x :: y :: rest => (!(x == a) || p y) && alwaysNext a p (y :: rest)

namespace PasskeyVerification

def isMutatingKind : EvKind → Bool
  | .fetchRelay _ => true
  | .fetchApi _ => true
  | .wait => true
  | _ => false

def isUpdKind : EvKind → Bool
  | .upd _ => true
  | _ => false

end PasskeyVerification

/- Helper lemmas about the hex codec and the ABI encoder. -/

theorem hexDigitVal_hexDigitChar : ∀ n < 16, hexDigitVal (hexDigitChar n) = n := by decide

theorem hexCharsToBytes_bytesToHexChars (bs : List Nat) (h : ∀ b ∈ bs, b < 256) :
    hexCharsToBytes (bytesToHexChars bs) = bs := by
  induction bs with
  | nil => rfl
  | cons b t ih =>
    have hb : b < 256 := h b (List.mem_cons_self _ _)
    have h1 : hexDigitVal (hexDigitChar (b / 16)) = b / 16 :=
      hexDigitVal_hexDigitChar _ (by omega)
    have h2 : hexDigitVal (hexDigitChar (b % 16)) = b % 16 :=
      hexDigitVal_hexDigitChar _ (by omega)
    have ht : ∀ b ∈ t, b < 256 := fun x hx => h x (List.mem_cons_of_mem _ hx)
    simp only [bytesToHexChars, byteToHexChars, List.map_cons, List.flatten_cons,
      List.cons_append, List.nil_append, hexCharsToBytes]
    rw [h1, h2]
    have : b / 16 * 16 + b % 16 = b := by omega
    rw [this]
    have ihx := ih ht
    simp only [bytesToHexChars] at ihx
    simpa using ihx

theorem natToBEBytes_mem_lt (n k : Nat) : ∀ b ∈ natToBEBytes n k, b < 256 := by
  induction k generalizing n with
  | zero => simp [natToBEBytes]
  | succ k ih =>
    intro b hb
    simp only [natToBEBytes, List.mem_append, List.mem_singleton] at hb
    rcases hb with hb | hb
    · exact ih _ _ hb
    · omega

theorem hexDigitVal_lt_of_isHexDigitChar (c : Char) (h : isHexDigitChar c = true) :
    hexDigitVal c < 16 := by
  have h' : ((48 ≤ c.toNat ∧ c.toNat ≤ 57) ∨ (97 ≤ c.toNat ∧ c.toNat ≤ 102)) ∨
      (65 ≤ c.toNat ∧ c.toNat ≤ 70) := by
    simpa [isHexDigitChar, Bool.or_eq_true, Bool.and_eq_true, decide_eq_true_eq] using h
  unfold hexDigitVal
  generalize c.toNat = m at h' ⊢
  rcases h' with (⟨h1, h2⟩ | ⟨h1, h2⟩) | ⟨h1, h2⟩
  · rw [if_neg (by omega), if_neg (by omega)]; omega
  · rw [if_pos (by omega)]; omega
  · rw [if_neg (by omega), if_pos (by omega)]; omega

theorem hexCharsToBytes_mem_lt (l : List Char) (h : ∀ c ∈ l, isHexDigitChar c = true) :
    ∀ b ∈ hexCharsToBytes l, b < 256 := by
  induction l using hexCharsToBytes.induct with
  | case1 => simp [hexCharsToBytes]
  | case2 c => simp [hexCharsToBytes]
  | case3 c1 c2 rest ih =>
    intro b hb
    simp only [hexCharsToBytes, List.mem_cons] at hb
    rcases hb with hb | hb
    · have v1 := hexDigitVal_lt_of_isHexDigitChar c1 (h c1 (by simp))
      have v2 := hexDigitVal_lt_of_isHexDigitChar c2 (h c2 (by simp))
      omega
    · exact ih (fun c hc => h c (by simp [hc])) b hb

theorem encodeTuple_addr_bytes (bs bs2 : List Nat) :
    encodeTuple [.addr bs, .bytes bs2] =
      leftPad32 bs ++ natToBEBytes 64 32 ++ natToBEBytes bs2.length 32 ++ padRight32 bs2 := by
  simp [encodeTuple, encodeHeads, AbiValue.headEnc, AbiValue.tailEnc, bytesTail]

theorem leftPad32_mem_lt (bs : List Nat) (h : ∀ b ∈ bs, b < 256) :
    ∀ b ∈ leftPad32 bs, b < 256 := by
  intro b hb
  simp only [leftPad32, List.mem_append, List.mem_replicate] at hb
  rcases hb with ⟨_, hb⟩ | hb
  · omega
  · exact h b hb

theorem padRight32_mem_lt (bs : List Nat) (h : ∀ b ∈ bs, b < 256) :
    ∀ b ∈ padRight32 bs, b < 256 := by
  intro b hb
  simp only [padRight32, List.mem_append, List.mem_replicate] at hb
  rcases hb with hb | ⟨_, hb⟩
  · exact h b hb
  · omega

theorem encodeTuple_addr_bytes_mem_lt (bs bs2 : List Nat)
    (h : ∀ b ∈ bs, b < 256) (h2 : ∀ b ∈ bs2, b < 256) :
    ∀ b ∈ encodeTuple [.addr bs, .bytes bs2], b < 256 := by
  intro b hb
  rw [encodeTuple_addr_bytes] at hb
  simp only [List.mem_append] at hb
  rcases hb with ((hb | hb) | hb) | hb
  · exact leftPad32_mem_lt bs h b hb
  · exact natToBEBytes_mem_lt _ _ b hb
  · exact natToBEBytes_mem_lt _ _ b hb
  · exact padRight32_mem_lt bs2 h2 b hb

theorem bytesOfHex_mem_lt (s : String) (h : HexData s) : ∀ b ∈ bytesOfHex s, b < 256 :=
  hexCharsToBytes_mem_lt _ h

theorem bytesOfHex_hexOfBytes (bs : List Nat) (h : ∀ b ∈ bs, b < 256) :
    bytesOfHex (hexOfBytes bs) = bs := by
  simp only [bytesOfHex, hexOfBytes]
  show hexCharsToBytes (bytesToHexChars bs) = bs
  exact hexCharsToBytes_bytesToHexChars bs h

theorem hexCharsToBytes_drop_two_mul (k : Nat) (l : List Char) :
    hexCharsToBytes (l.drop (2 * k)) = (hexCharsToBytes l).drop k := by
  induction k generalizing l with
  | zero => simp
  | succ k ih =>
    match l with
    | [] => simp [hexCharsToBytes]
    | [c] => simp [hexCharsToBytes]
    | c1 :: c2 :: rest =>
      have : 2 * (k + 1) = (2 * k) + 1 + 1 := by omega
      rw [this]
      simp only [List.drop_succ_cons, hexCharsToBytes, List.drop_succ_cons]
      exact ih rest

theorem hexCharsToBytes_length (l : List Char) :
    (hexCharsToBytes l).length = l.length / 2 := by
  induction l using hexCharsToBytes.induct with
  | case1 => simp [hexCharsToBytes]
  | case2 c => simp [hexCharsToBytes]
  | case3 c1 c2 rest ih =>
    simp only [hexCharsToBytes, List.length_cons, ih]
    omega

theorem lowerStr_data_length (s : String) : (lowerStr s).data.length = s.data.length := by
  simp [lowerStr]

/-- C1: The set-implementation commitment is domain-separated by the fixed
type-descriptor string `IMPLEMENTATION_SET_TYPEHASH`, which binds exactly the
seven fields `chainId, proxy, nonce, currentImplementation,
newImplementation, callData, validator` in that fixed order (first
conjunct, a decomposition of the source constant); the commitment digest is
the hash of exactly those seven fields under that type string (second
conjunct); and every commitment built during implementation repair in
`handleRecover` is built with exactly the proxy address, the configured new
implementation, empty call data, the freshly read nonce, the
implementation address read from the slot, no cross-chain replay, and the
ambient chain id (third conjunct). -/
theorem setImplementationCommitment_seven_fields_under_typehash
    (keccak : List Nat → List Nat) (w ni : String) (cid : Nat) :
    (WalletUtils.IMPLEMENTATION_SET_TYPEHASH =
      "EIP7702ProxyImplementationSet(" ++
        String.intercalate ","
          ["uint256 chainId", "address proxy", "uint256 nonce",
           "address currentImplementation", "address newImplementation",
           "bytes callData", "address validator"] ++ ")") ∧
    (∀ (proxyAddr newImpl callData currentImpl : String) (nonce chainId : Nat),
      WalletUtils.createSetImplementationHash keccak proxyAddr newImpl callData nonce
          currentImpl false chainId =
        hexOfBytes (keccak (
          keccak (asciiBytes WalletUtils.IMPLEMENTATION_SET_TYPEHASH) ++
          natToBEBytes chainId 32 ++
          leftPad32 (bytesOfHex proxyAddr) ++
          natToBEBytes nonce 32 ++
          leftPad32 (bytesOfHex currentImpl) ++
          leftPad32 (bytesOfHex newImpl) ++
          keccak (bytesOfHex callData) ++
          leftPad32 (bytesOfHex WalletUtils.VALIDATOR_ADDRESS)))) ∧
    (∀ (d i dok iok : Bool) (dh sv ih p nn cd ci : String) (n noi n2 cc : Nat) (r : Bool),
      PasskeyVerification.Ev.buildSetImplHash p nn cd n2 ci r cc ∈
          PasskeyVerification.handleRecoverTrace w ni cid d i ⟨dok, dh, sv, n, noi, iok, ih⟩ →
        p = w ∧ nn = ni ∧ cd = "0x" ∧ n2 = n ∧
        ci = PasskeyVerification.currentImplFromSlot sv ∧ r = false ∧ cc = cid) := by
  refine ⟨rfl, fun _ _ _ _ _ _ => rfl, ?_⟩
  intro d i dok iok dh sv ih p nn cd ci n noi n2 cc r hmem
  cases d <;> cases i <;> cases dok <;> cases iok <;>
    simp [PasskeyVerification.handleRecoverTrace, PasskeyVerification.implBranchTrace,
      PasskeyVerification.recoverSuccessTail] at hmem <;>
    tauto

/-- Witness for C1: the third conjunct applied to the concrete commitment
built in a concrete two-issue recovery trace. -/
theorem setImplementationCommitment_seven_fields_under_typehash_witness :
    ("0xW" : String) = "0xW" ∧ ("0xN" : String) = "0xN" ∧ ("0x" : String) = "0x" ∧
    (5 : Nat) = 5 ∧
    PasskeyVerification.currentImplFromSlot "0xs" = PasskeyVerification.currentImplFromSlot "0xs" ∧
    (false : Bool) = false ∧ (7 : Nat) = 7 :=
  (setImplementationCommitment_seven_fields_under_typehash (fun _ => []) "0xW" "0xN" 7).2.2
    true true true true "0xd" "0xs" "0xi" "0xW" "0xN" "0x"
    (PasskeyVerification.currentImplFromSlot "0xs") 5 1 5 7 false (by decide)

/-- C2: `createInitializeHash` (the library `buildInitializationHash`)
returns keccak256 of the ABI encoding of exactly the pair
`(proxyAddress as address, initArgs as bytes)`: a left-padded address word,
the offset word 0x40 for the dynamic member, the byte length of `initArgs`,
and the right-padded `initArgs` data — and nothing else; in particular no
nonce enters the encoding. -/
theorem createInitializeHash_hashes_exactly_proxy_and_initargs
    (keccak : List Nat → List Nat) (proxyAddress initArgs : String)
    (hp : HexData proxyAddress) (ha : HexData initArgs) :
    WalletUtils.createInitializeHash keccak proxyAddress initArgs =
      hexOfBytes (keccak
        (leftPad32 (bytesOfHex proxyAddress) ++ natToBEBytes 64 32 ++
         natToBEBytes (bytesOfHex initArgs).length 32 ++ padRight32 (bytesOfHex initArgs))) := by
  unfold WalletUtils.createInitializeHash WalletUtils.viemKeccak256
  rw [bytesOfHex_hexOfBytes _
    (encodeTuple_addr_bytes_mem_lt _ _ (bytesOfHex_mem_lt _ hp) (bytesOfHex_mem_lt _ ha))]
  rw [encodeTuple_addr_bytes]

/-- Witness for C2 at a concrete proxy address, argument string, and hash
function. -/
theorem createInitializeHash_hashes_exactly_proxy_and_initargs_witness :
    WalletUtils.createInitializeHash (fun bs => List.replicate 32 (bs.length % 256))
        "0xaAbBcCdDeEfF00112233445566778899aAbBcCdD" "0x1234" =
      hexOfBytes ((fun bs => List.replicate 32 (bs.length % 256))
        (leftPad32 (bytesOfHex "0xaAbBcCdDeEfF00112233445566778899aAbBcCdD") ++
         natToBEBytes 64 32 ++
         natToBEBytes (bytesOfHex "0x1234").length 32 ++
         padRight32 (bytesOfHex "0x1234"))) :=
  createInitializeHash_hashes_exactly_proxy_and_initargs _ _ _ (by decide) (by decide)

/-- C3: the two `createInitializeHash` implementations (library
wallet-utils vs. `upgrade-wallet.ts`) agree on every input, the two
`encodeInitializeArgs` implementations agree on every owner address, and on
well-formed hex inputs the common digest is exactly the hash of the ABI
byte encoding of the pair, pinning the digest down to the byte level. -/
theorem initializeHash_and_ownerEncoding_bitexact_across_files
    (keccak : List Nat → List Nat) (proxyAddr initArgs owner : String)
    (hp : HexData proxyAddr) (ha : HexData initArgs) :
    (UpgradeWallet.createInitializeHash keccak proxyAddr initArgs =
      WalletUtils.createInitializeHash keccak proxyAddr initArgs) ∧
    (UpgradeWallet.encodeInitializeArgs owner = WalletUtils.encodeInitializeArgs owner) ∧
    (UpgradeWallet.createInitializeHash keccak proxyAddr initArgs =
      hexOfBytes (keccak (encodeTuple [.addr (bytesOfHex proxyAddr), .bytes (bytesOfHex initArgs)]))) := by
  refine ⟨rfl, rfl, ?_⟩
  show WalletUtils.viemKeccak256 keccak _ = _
  unfold WalletUtils.viemKeccak256
  rw [bytesOfHex_hexOfBytes _
    (encodeTuple_addr_bytes_mem_lt _ _ (bytesOfHex_mem_lt _ hp) (bytesOfHex_mem_lt _ ha))]

/-- Witness for C3: the byte-level digest characterization at a concrete
input. -/
theorem initializeHash_and_ownerEncoding_bitexact_across_files_witness :
    UpgradeWallet.createInitializeHash (fun bs => List.replicate 32 (bs.length % 256))
        "0xaAbBcCdDeEfF00112233445566778899aAbBcCdD" "0x1234" =
      hexOfBytes ((fun bs => List.replicate 32 (bs.length % 256))
        (encodeTuple [.addr (bytesOfHex "0xaAbBcCdDeEfF00112233445566778899aAbBcCdD"),
                      .bytes (bytesOfHex "0x1234")])) :=
  (initializeHash_and_ownerEncoding_bitexact_across_files _ _ _
    "0x0011" (by decide) (by decide)).2.2

/-- C4 (divergence evaluation): `signInitialization` in
`src/unnamed/part_001` passes the digest hex string to viem's `signMessage`
as a plain string, so the byte string entering the EIP-191 signing pipeline
is the 94-byte prefixed ASCII expansion of the hex text, not the raw
32-byte digest the claim, the function's own comment, and
`upgrade-wallet.ts` require; `upgrade-wallet.ts`'s `signInitialization`
does sign the raw digest and packs `r ‖ s ‖ v` with `v = recovery + 27`. -/
theorem signInitialization_lib_signs_eip191_payload_not_digest :
    WalletUtils.signInitializationSignedBytes "0x0000000000000000000000000000000000000000000000000000000000000000" ≠ bytesOfHex "0x0000000000000000000000000000000000000000000000000000000000000000" ∧
    (bytesOfHex "0x0000000000000000000000000000000000000000000000000000000000000000").length = 32 ∧
    (WalletUtils.signInitializationSignedBytes "0x0000000000000000000000000000000000000000000000000000000000000000").length = 94 ∧
    UpgradeWallet.signInitializationSignedBytes "0x0000000000000000000000000000000000000000000000000000000000000000" = bytesOfHex "0x0000000000000000000000000000000000000000000000000000000000000000" ∧
    UpgradeWallet.signInitialization (fun _ => ⟨0, 1, 0⟩) "0x0000000000000000000000000000000000000000000000000000000000000000" = "0x000000000000000000000000000000000000000000000000000000000000000000000000000000000000000000000000000000000000000000000000000000011b" := by
  decide

/-- C5: the recovery modal classifies the account as unrecoverable for the
issue vector `delegateIncorrect = true`, `implementationIncorrect = false`,
`ownershipDisrupted = true` and for no other combination; the distinct
unrecoverable notice is rendered exactly in that state, and the
restore-account button — the only path to the recover action — is rendered
exactly in the other states. -/
theorem recoveryModal_unrecoverable_exactly_delegate_and_ownership :
    ∀ d i o : Bool,
      (RecoveryModal.isUnrecoverable d i o = true ↔ d = true ∧ i = false ∧ o = true) ∧
      (RecoveryModal.render true d i o).unrecoverableNotice = RecoveryModal.isUnrecoverable d i o ∧
      (RecoveryModal.render true d i o).recoverButtonShown =
        !(RecoveryModal.isUnrecoverable d i o) := by
  decide

/-- C6: when both issues are flagged at the start of a recovery attempt and
the delegate reset submission goes through, the trace contains exactly one
delegate-repair submission, one commitment build, and one
implementation-repair submission, with the delegate submission strictly
before a receipt wait, a wait strictly before the first re-inspection, a
re-inspection strictly before the commitment build, and the build strictly
before the implementation submission; every receipt wait is immediately
followed by a state re-inspection and every re-inspection immediately by
the step update that marks the step complete; and when the delegate reset
fails, no implementation repair is ever built or submitted, so the reverse
order can never occur. -/
theorem recover_delegate_repair_strictly_before_implementation_repair
    (w ni dh sv ih : String) (cid n noi : Nat) (iok : Bool) :
    (PasskeyVerification.recoverKinds w ni cid true true ⟨true, dh, sv, n, noi, iok, ih⟩).count
        (.fetchRelay "resetDelegate") = 1 ∧
    (PasskeyVerification.recoverKinds w ni cid true true ⟨true, dh, sv, n, noi, iok, ih⟩).count
        (.fetchRelay "resetImplementation") = 1 ∧
    (PasskeyVerification.recoverKinds w ni cid true true ⟨true, dh, sv, n, noi, iok, ih⟩).count
        .build = 1 ∧
    occursBefore (.fetchRelay "resetDelegate") .wait
        (PasskeyVerification.recoverKinds w ni cid true true ⟨true, dh, sv, n, noi, iok, ih⟩) = true ∧
    occursBefore .wait .check
        (PasskeyVerification.recoverKinds w ni cid true true ⟨true, dh, sv, n, noi, iok, ih⟩) = true ∧
    occursBefore .check .build
        (PasskeyVerification.recoverKinds w ni cid true true ⟨true, dh, sv, n, noi, iok, ih⟩) = true ∧
    occursBefore .build (.fetchRelay "resetImplementation")
        (PasskeyVerification.recoverKinds w ni cid true true ⟨true, dh, sv, n, noi, iok, ih⟩) = true ∧
    occursBefore (.fetchRelay "resetDelegate") (.fetchRelay "resetImplementation")
        (PasskeyVerification.recoverKinds w ni cid true true ⟨true, dh, sv, n, noi, iok, ih⟩) = true ∧
    alwaysNext .wait (fun k => k == .check)
        (PasskeyVerification.recoverKinds w ni cid true true ⟨true, dh, sv, n, noi, iok, ih⟩) = true ∧
    alwaysNext .check PasskeyVerification.isUpdKind
        (PasskeyVerification.recoverKinds w ni cid true true ⟨true, dh, sv, n, noi, iok, ih⟩) = true ∧
    (PasskeyVerification.recoverKinds w ni cid true true ⟨false, dh, sv, n, noi, iok, ih⟩).count
        (.fetchRelay "resetImplementation") = 0 ∧
    (PasskeyVerification.recoverKinds w ni cid true true ⟨false, dh, sv, n, noi, iok, ih⟩).count
        .build = 0 := by
  cases iok <;> exact ⟨rfl, rfl, rfl, rfl, rfl, rfl, rfl, rfl, rfl, rfl, rfl, rfl⟩

/-- C7: in every implementation-repair attempt the trace contains exactly
one implementation-slot read and exactly one nonce-tracker read, each
returning the environment's value for this attempt; the commitment build
uses exactly those two freshly read values for its `nonce` and
`currentImplementation` fields; both reads occur strictly before the build,
with no transaction submission or receipt wait between the slot read and
the build; and when a delegate repair precedes, its receipt wait occurs
before the slot read, so the reads postdate the last mutating step. -/
theorem recover_builds_commitment_from_fresh_reads
    (w ni dh sv ih : String) (cid n noi : Nat) (d iok : Bool) :
    (PasskeyVerification.Ev.buildSetImplHash w ni "0x" n
        (PasskeyVerification.currentImplFromSlot sv) false cid ∈
      PasskeyVerification.handleRecoverTrace w ni cid d true ⟨true, dh, sv, n, noi, iok, ih⟩) ∧
    (PasskeyVerification.recoverKinds w ni cid d true ⟨true, dh, sv, n, noi, iok, ih⟩).count
        .readSlot = 1 ∧
    (PasskeyVerification.recoverKinds w ni cid d true ⟨true, dh, sv, n, noi, iok, ih⟩).count
        .readNonce = 1 ∧
    (∀ v, PasskeyVerification.Ev.readNonce v ∈
        PasskeyVerification.handleRecoverTrace w ni cid d true ⟨true, dh, sv, n, noi, iok, ih⟩ →
      v = n) ∧
    (∀ v, PasskeyVerification.Ev.readImplSlot v ∈
        PasskeyVerification.handleRecoverTrace w ni cid d true ⟨true, dh, sv, n, noi, iok, ih⟩ →
      v = sv) ∧
    (∀ (p nn cd ci : String) (n2 cc : Nat) (r : Bool),
      PasskeyVerification.Ev.buildSetImplHash p nn cd n2 ci r cc ∈
          PasskeyVerification.handleRecoverTrace w ni cid d true ⟨true, dh, sv, n, noi, iok, ih⟩ →
        n2 = n ∧ ci = PasskeyVerification.currentImplFromSlot sv) ∧
    occursBefore .readSlot .build
        (PasskeyVerification.recoverKinds w ni cid d true ⟨true, dh, sv, n, noi, iok, ih⟩) = true ∧
    occursBefore .readNonce .build
        (PasskeyVerification.recoverKinds w ni cid d true ⟨true, dh, sv, n, noi, iok, ih⟩) = true ∧
    (segmentBetween .readSlot .build
        (PasskeyVerification.recoverKinds w ni cid d true ⟨true, dh, sv, n, noi, iok, ih⟩)).all
      (fun k => !(PasskeyVerification.isMutatingKind k)) = true ∧
    (!d || occursBefore .wait .readSlot
        (PasskeyVerification.recoverKinds w ni cid d true ⟨true, dh, sv, n, noi, iok, ih⟩)) = true := by
  refine ⟨?_, ?_, ?_, ?_, ?_, ?_, ?_⟩
  · cases d <;> cases iok <;>
      simp [PasskeyVerification.handleRecoverTrace, PasskeyVerification.implBranchTrace,
        PasskeyVerification.recoverSuccessTail]
  · cases d <;> cases iok <;> exact rfl
  · cases d <;> cases iok <;> exact rfl
  · intro v hv
    cases d <;> cases iok <;>
      simp [PasskeyVerification.handleRecoverTrace, PasskeyVerification.implBranchTrace,
        PasskeyVerification.recoverSuccessTail] at hv <;> exact hv
  · intro v hv
    cases d <;> cases iok <;>
      simp [PasskeyVerification.handleRecoverTrace, PasskeyVerification.implBranchTrace,
        PasskeyVerification.recoverSuccessTail] at hv <;> exact hv
  · intro p nn cd ci n2 cc r hmem
    cases d <;> cases iok <;>
      simp [PasskeyVerification.handleRecoverTrace, PasskeyVerification.implBranchTrace,
        PasskeyVerification.recoverSuccessTail] at hmem <;> tauto
  · exact by cases d <;> cases iok <;> exact ⟨rfl, rfl, rfl, rfl⟩

/-- Witness for C7: the commitment membership and the nonce-read
determinism at a concrete two-issue recovery trace. -/
theorem recover_builds_commitment_from_fresh_reads_witness :
    (PasskeyVerification.Ev.buildSetImplHash "0xW" "0xN" "0x" 5
        (PasskeyVerification.currentImplFromSlot "0xs") false 7 ∈
      PasskeyVerification.handleRecoverTrace "0xW" "0xN" 7 true true
        ⟨true, "0xd", "0xs", 5, 1, true, "0xi"⟩) ∧
    (5 : Nat) = 5 :=
  ⟨(recover_builds_commitment_from_fresh_reads "0xW" "0xN" "0xd" "0xs" "0xi" 7 5 1 true true).1,
   (recover_builds_commitment_from_fresh_reads "0xW" "0xN" "0xd" "0xs" "0xi" 7 5 1
      true true).2.2.2.1 5 (by decide)⟩

/-- C8: the implementation address the state inspection derives from a
32-byte (66-hex-character) slot value is exactly the low 20 bytes of the
slot, and implementation correctness is the case-insensitive comparison of
that address against the expected implementation; delegation correctness
requires the deployed bytecode to equal, case-insensitively, exactly the
3-byte delegation magic followed by the 20-byte expected delegate address,
and empty bytecode (`0x`) or any mismatch is classified as an issue. -/
theorem inspect_low20_slot_address_and_magic_delegate_bytecode
    (expectedDelegate expectedImplementation slot bytecode slotShown : String)
    (hslot : slot.data.length = 66) (hdel : expectedDelegate.data.length = 42) :
    bytesOfHex (PasskeyVerification.currentImplFromSlot slot) = (bytesOfHex slot).drop 12 ∧
    (bytesOfHex (PasskeyVerification.currentImplFromSlot slot)).length = 20 ∧
    (bytesOfHex slot).length = 32 ∧
    (AccountState.implementationIssue expectedImplementation slotShown = false ↔
      lowerStr slotShown = lowerStr expectedImplementation) ∧
    (AccountState.bytecodeIssue expectedDelegate bytecode = false ↔
      lowerStr bytecode = lowerStr (AccountState.getExpectedBytecode expectedDelegate)) ∧
    AccountState.bytecodeIssue expectedDelegate "0x" = true ∧
    AccountState.getExpectedBytecode expectedDelegate =
      String.mk (WalletUtils.MAGIC_PREFIX_STR.data ++ expectedDelegate.data.drop 2) := by
  have h42 : expectedDelegate.length = 42 := hdel
  refine ⟨?_, ?_, ?_, ?_, ?_, rfl, rfl⟩
  · show hexCharsToBytes ((('0' :: 'x' :: slot.data.drop (slot.data.length - 40)).drop 2)) = _
    rw [hslot]
    show hexCharsToBytes (slot.data.drop 26) = (hexCharsToBytes (slot.data.drop 2)).drop 12
    have e2 : slot.data.drop 26 = (slot.data.drop 2).drop (2 * 12) := by
      rw [List.drop_drop]
    rw [e2, hexCharsToBytes_drop_two_mul]
  · show (hexCharsToBytes ((('0' :: 'x' :: slot.data.drop (slot.data.length - 40)).drop 2))).length = 20
    rw [hslot]
    show (hexCharsToBytes (slot.data.drop 26)).length = 20
    rw [hexCharsToBytes_length, List.length_drop, hslot]
  · show (hexCharsToBytes (slot.data.drop 2)).length = 32
    rw [hexCharsToBytes_length, List.length_drop, hslot]
  · simp [AccountState.implementationIssue]
  · simp only [AccountState.bytecodeIssue, AccountState.isCorrectBytecode,
      Bool.or_eq_false_iff, Bool.not_eq_false', beq_iff_eq, beq_eq_false_iff_ne, ne_eq]
    constructor
    · rintro ⟨_, hc⟩; exact hc
    · intro hc
      refine ⟨?_, hc⟩
      intro hb
      subst hb
      have hl := congrArg (fun s => s.data.length) hc
      simp only [lowerStr_data_length] at hl
      simp only [AccountState.getExpectedBytecode] at hl
      simp at hl
      omega

/-- Witness for C8: the low-20-bytes fact at a concrete slot value and
delegate address of the source's lengths. -/
theorem inspect_low20_slot_address_and_magic_delegate_bytecode_witness :
    bytesOfHex (PasskeyVerification.currentImplFromSlot
        "0x000000000000000000000000cA271A94dd66982180960B579de6B3213084D67A") =
      (bytesOfHex
        "0x000000000000000000000000cA271A94dd66982180960B579de6B3213084D67A").drop 12 :=
  (inspect_low20_slot_address_and_magic_delegate_bytecode
    "0xcA271A94dd66982180960B579de6B3213084D67A"
    "0x3e0BecB45eBf7Bd1e3943b9521264Bc5B0bd8Ca9"
    "0x000000000000000000000000cA271A94dd66982180960B579de6B3213084D67A"
    "0xef0100cA271A94dd66982180960B579de6B3213084D67A"
    "0x3e0BecB45eBf7Bd1e3943b9521264Bc5B0bd8Ca9"
    (by decide) (by decide)).1

/-- C10: the relay endpoint's `POST` handler answers any operation outside
`fund`, `upgradeEOA`, `execute` with an HTTP 400 response whose error names
the unknown operation, and performs no ledger submission at all (no
`sendTransaction`, no `writeContract`). -/
theorem relay_unknown_operation_returns_400_without_submission
    (operation : String) (env : RelayRoute.RelayEnv)
    (h1 : operation ≠ "fund") (h2 : operation ≠ "upgradeEOA") (h3 : operation ≠ "execute") :
    RelayRoute.POST operation env =
      (⟨400, some ("Unknown operation: " ++ operation), none⟩, []) := by
  simp [RelayRoute.POST, h1, h2, h3]

/-- Witness for C10: the `resetDelegate` operation that the recovery flow
actually sends is answered with a 400 and no submission. -/
theorem relay_unknown_operation_returns_400_without_submission_witness :
    RelayRoute.POST "resetDelegate" ⟨"0x1", "0x2", "0x3"⟩ =
      (⟨400, some ("Unknown operation: " ++ "resetDelegate"), none⟩, []) :=
  relay_unknown_operation_returns_400_without_submission "resetDelegate" ⟨"0x1", "0x2", "0x3"⟩
    (by decide) (by decide) (by decide)

/-- C9 counterexample: in a recovery attempt with both issues flagged whose
delegate reset submission fails, the failing step's own entry (index 1,
"Resetting delegate to relayer...") carries no error and is left
incomplete, while the error is recorded on a newly appended final entry
(index 2, "Recovery failed") — refuting, at this concrete input, the claim
that a failure during a step is recorded on that step's entry. -/
theorem recover_failure_error_lands_on_new_entry_cex :
    (PasskeyVerification.stepLog (PasskeyVerification.handleRecoverTrace "0xW" "0xN" 911867
        true true ⟨false, "0xd", "0xs", 5, 1, true, "0xi"⟩)).get? 1 =
      some ⟨"Resetting delegate to relayer...", false, none, none, none⟩ ∧
    (PasskeyVerification.stepLog (PasskeyVerification.handleRecoverTrace "0xW" "0xN" 911867
        true true ⟨false, "0xd", "0xs", 5, 1, true, "0xi"⟩)).get? 2 =
      some ⟨"Recovery failed", true, none, none, some "Failed to reset delegate"⟩ ∧
    (∀ st ∈ PasskeyVerification.stepLog (PasskeyVerification.handleRecoverTrace "0xW" "0xN" 911867
        true true ⟨false, "0xd", "0xs", 5, 1, true, "0xi"⟩),
      st.status = "Resetting delegate to relayer..." →
        st.error = none ∧ st.isComplete = false) := by
  decide

/-- C9 (amended): the verification-step log is cleared at the start of
every verification or recovery attempt (a disrupted account aborts the
verification attempt before it starts, opening the recovery modal instead);
each repair step appends exactly one `VerificationStep` entry; a failure
during a step halts the sequence with no automatic retry of later steps
(the trace after a failed delegate reset contains no implementation-repair
events, and the trace after a failed implementation reset contains no
further events at all beyond the appended error entry); and a thrown
failure is recorded on a newly appended final error entry while the failing
step's own entry remains incomplete and error-free, rather than being
recorded on that step's entry. -/
theorem stepLog_clear_append_halt_and_error_placement
    (w ni dh sv ih : String) (cid n noi : Nat) (d i dok iok : Bool)
    (venv : PasskeyVerification.VerifyEnv) (vd vi : Bool) :
    (PasskeyVerification.handleRecoverTrace w ni cid d i
        ⟨dok, dh, sv, n, noi, iok, ih⟩).head? = some .clearSteps ∧
    (PasskeyVerification.handleVerifyTrace vd vi venv = [.openRecoveryModal] ∨
      (PasskeyVerification.handleVerifyTrace vd vi venv).head? = some .clearSteps) ∧
    (PasskeyVerification.recoverKinds w ni cid d i ⟨dok, dh, sv, n, noi, iok, ih⟩).count
        (.add "Resetting delegate to relayer...") = (if d then 1 else 0) ∧
    (PasskeyVerification.recoverKinds w ni cid d i ⟨dok, dh, sv, n, noi, iok, ih⟩).count
        (.add "Resetting implementation to correct version...") =
      (if i && (!d || dok) then 1 else 0) ∧
    PasskeyVerification.recoverKinds w ni cid true i ⟨false, dh, sv, n, noi, iok, ih⟩ =
      [.clear, .add "Starting account recovery...", .add "Resetting delegate to relayer...",
       .fetchRelay "resetDelegate", .add "Recovery failed"] ∧
    PasskeyVerification.recoverKinds w ni cid false true ⟨dok, dh, sv, n, noi, false, ih⟩ =
      [.clear, .add "Starting account recovery...",
       .add "Resetting implementation to correct version...",
       .readSlot, .readNonce, .readNOI, .build, .signRaw,
       .fetchRelay "resetImplementation", .add "Recovery failed"] ∧
    PasskeyVerification.stepLog (PasskeyVerification.handleRecoverTrace w ni cid true i
        ⟨false, dh, sv, n, noi, iok, ih⟩) =
      [⟨"Starting account recovery...", false, none, none, none⟩,
       ⟨"Resetting delegate to relayer...", false, none, none, none⟩,
       ⟨"Recovery failed", true, none, none, some "Failed to reset delegate"⟩] ∧
    PasskeyVerification.stepLog (PasskeyVerification.handleRecoverTrace w ni cid false true
        ⟨dok, dh, sv, n, noi, false, ih⟩) =
      [⟨"Starting account recovery...", false, none, none, none⟩,
       ⟨"Resetting implementation to correct version...", false, none, none, none⟩,
       ⟨"Recovery failed", true, none, none, some "Failed to reset implementation"⟩] := by
  refine ⟨rfl, ?_, ?_, ?_, ?_, ?_, ?_, ?_⟩
  · cases vd <;> cases vi
    · right; rfl
    all_goals left; rfl
  · cases d <;> cases i <;> cases dok <;> cases iok <;> exact rfl
  · cases d <;> cases i <;> cases dok <;> cases iok <;> exact rfl
  · cases i <;> cases iok <;> exact rfl
  · cases dok <;> exact rfl
  · cases i <;> cases iok <;> exact rfl
  · cases dok <;> exact rfl
